import Mathlib

/-!
Verification development for the shader binding adapter
(`src/python/magnum/shaders.cpp` of magnum-bindings).

The file has two layers:

* A model of the native engine objects (`NativePhong`,
  `NativeVertexColor`).  The native engine is an external collaborator of
  this repository (its sources are not part of it), so these definitions
  are written from the specification's description of the outbound API:
  constructors taking `(flags, lightCount)`, one `setX` mutator per
  uniform which stores the value, and read-only `flags()` / `lightCount()`
  accessors returning the construction parameters.  Value types carried by
  uniforms (vectors, colors, matrices, scalars) are never inspected or
  computed with by the binding, only passed through, so their components
  are modelled as integers.

* The binding layer itself, translated line by line from `shaders.cpp`:
  the constructor defaults, the truncating `flags` getter, the guarded
  setter lambdas for `alpha_mask`, `light_positions` and `light_colors`
  with their exact error category and message, and the plain forwarding
  setters.  A binding setter returns `Option PyError × State`: the first
  component is the Python exception raised (if any), the second the
  native object's state after the call, which equals the input state
  whenever an exception is raised before the native setter runs.
-/

/-- Modelled from the spec: a 3D vector uniform payload (native `Vec3`,
three float components).  The binding performs no arithmetic on the
components, so they are carried as integers. -/
structure Vec3 where
  x : Int
  y : Int
  z : Int
deriving DecidableEq, Repr

/-- Modelled from the spec: an RGBA color uniform payload (native
`Color4`, four float components), carried as integers. -/
structure Color4 where
  r : Int
  g : Int
  b : Int
  a : Int
deriving DecidableEq, Repr

/-- Modelled from the spec: an opaque matrix uniform payload (a native
matrix value passed through unchanged by the binding). -/
structure MatrixPayload where
  payload : Int
deriving DecidableEq, Repr

/-- Modelled from the spec: the numeric value of the native flag
`Shaders::Phong::Flag::AmbientTexture`.  The native `Flag` enum lives in
the engine's header (not part of this repository); its values are
distinct single bits of the low byte, listed here in the registration
order of `shaders.cpp` lines 93–99. -/
def Phong.Flag.AmbientTexture : Nat := 1

/-- Modelled from the spec: `Shaders::Phong::Flag::DiffuseTexture`. -/
def Phong.Flag.DiffuseTexture : Nat := 2

/-- Modelled from the spec: `Shaders::Phong::Flag::SpecularTexture`. -/
def Phong.Flag.SpecularTexture : Nat := 4

/-- Modelled from the spec: `Shaders::Phong::Flag::NormalTexture`. -/
def Phong.Flag.NormalTexture : Nat := 8

/-- Modelled from the spec: `Shaders::Phong::Flag::AlphaMask`. -/
def Phong.Flag.AlphaMask : Nat := 16

/-- Modelled from the spec: `Shaders::Phong::Flag::VertexColor`. -/
def Phong.Flag.VertexColor : Nat := 32

/-- Modelled from the spec: `Shaders::Phong::Flag{}`, the empty flag
set, exposed as `NONE` by the binding. -/
def Phong.Flag.NONE : Nat := 0

/-- The seven flag values exposed by the binding's enum registration
(`shaders.cpp` lines 92–101), in registration order. -/
def Phong.Flag.exposedValues : List Nat :=
  [Phong.Flag.AmbientTexture, Phong.Flag.DiffuseTexture,
   Phong.Flag.SpecularTexture, Phong.Flag.NormalTexture,
   Phong.Flag.AlphaMask, Phong.Flag.VertexColor, Phong.Flag.NONE]

/-- Modelled from the spec: the state of a native `Shaders::Phong`
object.  `flags` (the native flag word, an unsigned integer wider than
one byte) and `lightCount` are fixed at construction; each uniform slot
holds the last value stored by the corresponding native setter, `none`
before the first store. -/
structure NativePhong where
  flags : Nat
  lightCount : Nat
  ambientColor : Option Color4
  diffuseColor : Option Color4
  specularColor : Option Color4
  shininess : Option Int
  alphaMask : Option Int
  transformationMatrix : Option MatrixPayload
  normalMatrix : Option MatrixPayload
  projectionMatrix : Option MatrixPayload
  lightPositions : Option (List Vec3)
  lightColors : Option (List Color4)
deriving DecidableEq, Repr

/-- Modelled from the spec: the native `Shaders::Phong` constructor —
stores the construction flags and light count, all uniform slots start
unset. -/
def NativePhong.construct (flags lightCount : Nat) : NativePhong :=
  ⟨flags, lightCount, none, none, none, none, none, none, none, none, none, none⟩

/-- Modelled from the spec: native `setAmbientColor`. -/
def NativePhong.setAmbientColor (self : NativePhong) (c : Color4) : NativePhong :=
  { self with ambientColor := some c }

/-- Modelled from the spec: native `setDiffuseColor`. -/
def NativePhong.setDiffuseColor (self : NativePhong) (c : Color4) : NativePhong :=
  { self with diffuseColor := some c }

/-- Modelled from the spec: native `setSpecularColor`. -/
def NativePhong.setSpecularColor (self : NativePhong) (c : Color4) : NativePhong :=
  { self with specularColor := some c }

/-- Modelled from the spec: native `setShininess` (float scalar carried
as an integer). -/
def NativePhong.setShininess (self : NativePhong) (v : Int) : NativePhong :=
  { self with shininess := some v }

/-- Modelled from the spec: native `setAlphaMask` (float scalar carried
as an integer). -/
def NativePhong.setAlphaMask (self : NativePhong) (mask : Int) : NativePhong :=
  { self with alphaMask := some mask }

/-- Modelled from the spec: native `setTransformationMatrix`. -/
def NativePhong.setTransformationMatrix (self : NativePhong) (m : MatrixPayload) : NativePhong :=
  { self with transformationMatrix := some m }

/-- Modelled from the spec: native `setNormalMatrix`. -/
def NativePhong.setNormalMatrix (self : NativePhong) (m : MatrixPayload) : NativePhong :=
  { self with normalMatrix := some m }

/-- Modelled from the spec: native `setProjectionMatrix`. -/
def NativePhong.setProjectionMatrix (self : NativePhong) (m : MatrixPayload) : NativePhong :=
  { self with projectionMatrix := some m }

/-- Modelled from the spec: native `setLightPositions`. -/
def NativePhong.setLightPositions (self : NativePhong) (ps : List Vec3) : NativePhong :=
  { self with lightPositions := some ps }

/-- Modelled from the spec: native `setLightColors`. -/
def NativePhong.setLightColors (self : NativePhong) (cs : List Color4) : NativePhong :=
  { self with lightColors := some cs }

/-- A Python exception raised by the binding layer: the exception type
(`PyExc_AttributeError` or `PyExc_ValueError`) together with its
message. -/
inductive PyError where
  | attributeError : String → PyError
  | valueError : String → PyError
deriving DecidableEq, Repr

/-- The string produced by `PyErr_Format(PyExc_ValueError, "expected %u
items but got %u", expected, actual)` (`shaders.cpp` lines 138 and 146):
both counts are formatted as unsigned decimal numbers. -/
def pyFormatExpectedGot (expected actual : Nat) : String :=
  "expected " ++ toString expected ++ " items but got " ++ toString actual

/-- The default of the `flags` constructor argument,
`Shaders::Phong::Flag{}` (`shaders.cpp` line 106). -/
def phongDefaultFlags : Nat := 0

/-- The default of the `light_count` constructor argument
(`shaders.cpp` line 107). -/
def phongDefaultLightCount : Nat := 1

/-- The bound constructor `py::init<Shaders::Phong::Flag, UnsignedInt>()`
(`shaders.cpp` lines 105–107): forwards both arguments to the native
constructor. -/
def phong_init (flags light_count : Nat) : NativePhong :=
  NativePhong.construct flags light_count

/-- Construction with both arguments omitted: each takes its registered
default. -/
def phong_init_omitted : NativePhong :=
  phong_init phongDefaultFlags phongDefaultLightCount

/-- The `flags` read-only property getter (`shaders.cpp` lines 108–110):
`Shaders::Phong::Flag(UnsignedByte(self.flags()))` — the native flag
word truncated through an unsigned 8-bit cast. -/
def flags_get (self : NativePhong) : Nat :=
  self.flags % 256

/-- The `light_count` read-only property getter (`shaders.cpp` lines
111–112): forwards to native `lightCount()`. -/
def light_count_get (self : NativePhong) : Nat :=
  self.lightCount

/-- The `ambient_color` setter (`shaders.cpp` lines 113–114): plain
forward to the native setter, no exception possible. -/
def ambient_color_set (self : NativePhong) (c : Color4) : Option PyError × NativePhong :=
  (none, self.setAmbientColor c)

/-- The `diffuse_color` setter (`shaders.cpp` lines 115–116). -/
def diffuse_color_set (self : NativePhong) (c : Color4) : Option PyError × NativePhong :=
  (none, self.setDiffuseColor c)

/-- The `specular_color` setter (`shaders.cpp` lines 117–118). -/
def specular_color_set (self : NativePhong) (c : Color4) : Option PyError × NativePhong :=
  (none, self.setSpecularColor c)

/-- The `shininess` setter (`shaders.cpp` lines 120–121). -/
def shininess_set (self : NativePhong) (v : Int) : Option PyError × NativePhong :=
  (none, self.setShininess v)

/-- The `alpha_mask` setter lambda (`shaders.cpp` lines 122–129): if the
native flags do not contain `Flag::AlphaMask`, raise `AttributeError`
with the exact message of line 124 and leave the native object
untouched; otherwise forward to `setAlphaMask`. -/
def alpha_mask_set (self : NativePhong) (mask : Int) : Option PyError × NativePhong :=
  if self.flags &&& Phong.Flag.AlphaMask = 0 then
    (some (PyError.attributeError "the shader was not created with alpha mask enabled"), self)
  else
    (none, self.setAlphaMask mask)

/-- The `transformation_matrix` setter (`shaders.cpp` lines 130–131). -/
def transformation_matrix_set (self : NativePhong) (m : MatrixPayload) : Option PyError × NativePhong :=
  (none, self.setTransformationMatrix m)

/-- The `normal_matrix` setter (`shaders.cpp` lines 132–133). -/
def normal_matrix_set (self : NativePhong) (m : MatrixPayload) : Option PyError × NativePhong :=
  (none, self.setNormalMatrix m)

/-- The `projection_matrix` setter (`shaders.cpp` lines 134–135). -/
def projection_matrix_set (self : NativePhong) (m : MatrixPayload) : Option PyError × NativePhong :=
  (none, self.setProjectionMatrix m)

/-- The `light_positions` setter lambda (`shaders.cpp` lines 136–143):
if the supplied sequence length differs from the native `lightCount()`,
raise `ValueError` whose message carries `lightCount()` and
`UnsignedInt(positions.size())` (the length reduced modulo `2^32` by the
cast) and leave the native object untouched; otherwise forward to
`setLightPositions`. -/
def light_positions_set (self : NativePhong) (positions : List Vec3) : Option PyError × NativePhong :=
  if positions.length ≠ self.lightCount then
    (some (PyError.valueError (pyFormatExpectedGot self.lightCount (positions.length % 2 ^ 32))), self)
  else
    (none, self.setLightPositions positions)

/-- The `light_colors` setter lambda (`shaders.cpp` lines 144–151):
same guard as `light_positions` over the native `lightCount()`. -/
def light_colors_set (self : NativePhong) (colors : List Color4) : Option PyError × NativePhong :=
  if colors.length ≠ self.lightCount then
    (some (PyError.valueError (pyFormatExpectedGot self.lightCount (colors.length % 2 ^ 32))), self)
  else
    (none, self.setLightColors colors)

/-- Modelled from the spec: the state of a native
`Shaders::VertexColor<dimensions>` object — the dimension parameter and
the single uniform slot, holding the last stored transformation and
projection matrix. -/
structure NativeVertexColor where
  dimensions : Nat
  transformationProjectionMatrix : Option MatrixPayload
deriving DecidableEq, Repr

/-- Modelled from the spec: the native `Shaders::VertexColor`
default constructor (`shaders.cpp` line 48). -/
def NativeVertexColor.construct (dimensions : Nat) : NativeVertexColor :=
  ⟨dimensions, none⟩

/-- Modelled from the spec: native `setTransformationProjectionMatrix`. -/
def NativeVertexColor.setTransformationProjectionMatrix
    (self : NativeVertexColor) (m : MatrixPayload) : NativeVertexColor :=
  { self with transformationProjectionMatrix := some m }

/-- The `transformation_projection_matrix` setter of a VertexColor
shader (`shaders.cpp` lines 52–53): plain forward to the native setter,
registered with a null getter. -/
def transformation_projection_matrix_set
    (self : NativeVertexColor) (m : MatrixPayload) : Option PyError × NativeVertexColor :=
  (none, self.setTransformationProjectionMatrix m)

/-- The module-level state relevant to the vertex-color registration
block (`shaders.cpp` lines 67–77): one `VertexColor2D` and one
`VertexColor3D` instance, each its own native object.  The registration
code closes over no module-level mutable state, so a property write is a
function of the single written instance only. -/
structure VertexColorPair where
  vc2d : NativeVertexColor
  vc3d : NativeVertexColor
deriving DecidableEq, Repr

/-- Writing `transformation_projection_matrix` on the 2D instance of a
pair. -/
def VertexColorPair.setOn2D (w : VertexColorPair) (m : MatrixPayload) : VertexColorPair :=
  { w with vc2d := (transformation_projection_matrix_set w.vc2d m).2 }

/-- Writing `transformation_projection_matrix` on the 3D instance of a
pair. -/
def VertexColorPair.setOn3D (w : VertexColorPair) (m : MatrixPayload) : VertexColorPair :=
  { w with vc3d := (transformation_projection_matrix_set w.vc3d m).2 }

/-- One row of the property-registration table: the exposed name,
whether a (non-null) getter was registered, and whether a setter was
registered. -/
structure PropertyDef where
  pname : String
  hasGetter : Bool
  hasSetter : Bool
deriving DecidableEq, Repr

/-- The uniform properties registered on `VertexColor2D` and
`VertexColor3D` (`shaders.cpp` lines 52–53): the getter slot is
`nullptr`. -/
def vertexColorUniformProperties : List PropertyDef :=
  [⟨"transformation_projection_matrix", false, true⟩]

/-- The uniform properties registered on `Phong` (`shaders.cpp` lines
113–151): every `def_property` call passes `nullptr` as the getter.  The
read-only `flags` and `light_count` properties are registered separately
via `def_property_readonly` and are not uniform slots. -/
def phongUniformProperties : List PropertyDef :=
  [⟨"ambient_color", false, true⟩,
   ⟨"diffuse_color", false, true⟩,
   ⟨"specular_color", false, true⟩,
   ⟨"shininess", false, true⟩,
   ⟨"alpha_mask", false, true⟩,
   ⟨"transformation_matrix", false, true⟩,
   ⟨"normal_matrix", false, true⟩,
   ⟨"projection_matrix", false, true⟩,
   ⟨"light_positions", false, true⟩,
   ⟨"light_colors", false, true⟩]

/-- `F` is a flag set composable by the caller: a bitwise OR of values
from the exposed enum (`AMBIENT_TEXTURE` … `VERTEX_COLOR`, `NONE`). -/
def IsExposedFlagCombination (F : Nat) : Prop :=
  ∃ l : List Nat, (∀ v ∈ l, v ∈ Phong.Flag.exposedValues) ∧
    F = l.foldr (fun a b => a ||| b) 0

/-- Every flag set composable from the exposed enum values fits in the
low byte (each exposed value is below `64`, and bitwise OR preserves the
bound). -/
theorem IsExposedFlagCombination.lt_256 (F : Nat)
    (h : IsExposedFlagCombination F) : F < 256 := by
  obtain ⟨l, hmem, rfl⟩ := h
  induction l with
  | nil => decide
  | cons a t ih =>
    have ha : a ∈ Phong.Flag.exposedValues := hmem a (List.mem_cons_self a t)
    have ha' : a < 256 := by
      fin_cases ha <;> decide
    have ht : t.foldr (fun a b => a ||| b) 0 < 256 :=
      ih fun v hv => hmem v (List.mem_cons_of_mem a hv)
    calc a ||| t.foldr (fun a b => a ||| b) 0 < 2 ^ 8 :=
          Nat.or_lt_two_pow ha' ht
      _ = 256 := rfl

/-- C1: for every Phong shader constructed with `lightCount = n > 0` and
every supplied sequence of light positions (resp. light colors) whose
length differs from `n`, the `light_positions` (resp. `light_colors`)
setter raises a size-mismatch `ValueError` whose message carries the
expected count `n` and the actual supplied count, and leaves the native
object untouched (the sequence is not forwarded).  The length bounds
`2 ^ 32` reflect the `UnsignedInt` cast applied when formatting the
actual count. -/
theorem phong_light_size_mismatch_rejected
    (F n : Nat) (ps : List Vec3) (cs : List Color4)
    (hn : 0 < n) (hps : ps.length ≠ n) (hcs : cs.length ≠ n)
    (hpsz : ps.length < 2 ^ 32) (hcsz : cs.length < 2 ^ 32) :
    light_positions_set (phong_init F n) ps =
      (some (PyError.valueError (pyFormatExpectedGot n ps.length)), phong_init F n)
    ∧ light_colors_set (phong_init F n) cs =
      (some (PyError.valueError (pyFormatExpectedGot n cs.length)), phong_init F n) := by
  have hlc : (phong_init F n).lightCount = n := rfl
  constructor
  · rw [light_positions_set, if_pos (hlc ▸ hps), hlc, Nat.mod_eq_of_lt hpsz]
  · rw [light_colors_set, if_pos (hlc ▸ hcs), hlc, Nat.mod_eq_of_lt hcsz]

/-- Witness for C1 at `n = 2` with empty sequences. -/
theorem phong_light_size_mismatch_rejected_witness :
    light_positions_set (phong_init 0 2) [] =
      (some (PyError.valueError (pyFormatExpectedGot 2 (List.length ([] : List Vec3)))),
        phong_init 0 2)
    ∧ light_colors_set (phong_init 0 2) [] =
      (some (PyError.valueError (pyFormatExpectedGot 2 (List.length ([] : List Color4)))),
        phong_init 0 2) :=
  phong_light_size_mismatch_rejected 0 2 [] []
    (by decide) (by decide) (by decide) (by decide) (by decide)

/-- C2: writing `alpha_mask` raises an error exactly when the
`AlphaMask` flag was not among the construction flags; when it was, the
write forwards the given value to the native `setAlphaMask`. -/
theorem phong_alpha_mask_capability_guard (F k : Nat) (v : Int) :
    ((alpha_mask_set (phong_init F k) v).1.isSome = true ↔
      F &&& Phong.Flag.AlphaMask = 0)
    ∧ (F &&& Phong.Flag.AlphaMask ≠ 0 →
        alpha_mask_set (phong_init F k) v =
          (none, (phong_init F k).setAlphaMask v)) := by
  have hfl : (phong_init F k).flags = F := rfl
  constructor
  · by_cases h : F &&& Phong.Flag.AlphaMask = 0
    · rw [alpha_mask_set, if_pos (hfl ▸ h)]
      simpa using h
    · rw [alpha_mask_set, if_neg (hfl ▸ h)]
      simpa using h
  · intro h
    rw [alpha_mask_set, if_neg (hfl ▸ h)]

/-- Witness for C2: with the `AlphaMask` flag the write forwards; without
it an error is raised. -/
theorem phong_alpha_mask_capability_guard_witness :
    alpha_mask_set (phong_init Phong.Flag.AlphaMask 1) 3 =
      (none, (phong_init Phong.Flag.AlphaMask 1).setAlphaMask 3)
    ∧ (alpha_mask_set (phong_init 0 1) 3).1.isSome = true :=
  ⟨(phong_alpha_mask_capability_guard Phong.Flag.AlphaMask 1 3).2 (by decide),
   (phong_alpha_mask_capability_guard 0 1 3).1.mpr (by decide)⟩

/-- C3: reading the `flags` property immediately after construction with
a flag set `F` composed (by bitwise OR) from the exposed flag values
returns exactly `F`. -/
theorem phong_flags_roundtrip (F k : Nat)
    (h : IsExposedFlagCombination F) :
    flags_get (phong_init F k) = F := by
  have hlt : F < 256 := IsExposedFlagCombination.lt_256 F h
  show F % 256 = F
  exact Nat.mod_eq_of_lt hlt

/-- Witness for C3 at `F = AMBIENT_TEXTURE | DIFFUSE_TEXTURE`. -/
theorem phong_flags_roundtrip_witness :
    flags_get (phong_init (Phong.Flag.AmbientTexture ||| Phong.Flag.DiffuseTexture) 1) =
      Phong.Flag.AmbientTexture ||| Phong.Flag.DiffuseTexture :=
  phong_flags_roundtrip (Phong.Flag.AmbientTexture ||| Phong.Flag.DiffuseTexture) 1
    ⟨[Phong.Flag.AmbientTexture, Phong.Flag.DiffuseTexture], by decide, by decide⟩

/-- C4: reading `light_count` immediately after construction with
`lightCount = k > 0` returns exactly `k`; with both constructor
arguments omitted, `light_count` defaults to `1` and `flags` to the
empty flag set. -/
theorem phong_light_count_roundtrip_and_defaults (F k : Nat) (hk : 0 < k) :
    light_count_get (phong_init F k) = k
    ∧ phong_init_omitted = phong_init 0 1
    ∧ light_count_get phong_init_omitted = 1
    ∧ flags_get phong_init_omitted = 0 :=
  ⟨rfl, rfl, rfl, rfl⟩

/-- Witness for C4 at `k = 7`. -/
theorem phong_light_count_roundtrip_and_defaults_witness :
    light_count_get (phong_init 0 7) = 7
    ∧ phong_init_omitted = phong_init 0 1
    ∧ light_count_get phong_init_omitted = 1
    ∧ flags_get phong_init_omitted = 0 :=
  phong_light_count_roundtrip_and_defaults 0 7 (by decide)

/-- C5: whenever a guarded setter (`alpha_mask`, `light_positions`,
`light_colors`) raises an error, the error is returned at the call
boundary and the native object's state is unchanged: the guard runs
before any native setter, so a failing call causes no partial state
change. -/
theorem guarded_setter_error_no_state_change
    (s : NativePhong) (v : Int) (ps : List Vec3) (cs : List Color4) :
    ((alpha_mask_set s v).1.isSome = true → (alpha_mask_set s v).2 = s)
    ∧ ((light_positions_set s ps).1.isSome = true → (light_positions_set s ps).2 = s)
    ∧ ((light_colors_set s cs).1.isSome = true → (light_colors_set s cs).2 = s) := by
  refine ⟨?_, ?_, ?_⟩
  · rw [alpha_mask_set]
    by_cases h : s.flags &&& Phong.Flag.AlphaMask = 0
    · rw [if_pos h]
      intro
      rfl
    · rw [if_neg h]
      intro hc
      simp at hc
  · rw [light_positions_set]
    by_cases h : ps.length ≠ s.lightCount
    · rw [if_pos h]
      intro
      rfl
    · rw [if_neg h]
      intro hc
      simp at hc
  · rw [light_colors_set]
    by_cases h : cs.length ≠ s.lightCount
    · rw [if_pos h]
      intro
      rfl
    · rw [if_neg h]
      intro hc
      simp at hc

/-- Witness for C5: all three guarded setters, raising on a shader
constructed with empty flags and one light, leave its state unchanged. -/
theorem guarded_setter_error_no_state_change_witness :
    (alpha_mask_set (phong_init 0 1) 3).2 = phong_init 0 1
    ∧ (light_positions_set (phong_init 0 1) []).2 = phong_init 0 1
    ∧ (light_colors_set (phong_init 0 1) []).2 = phong_init 0 1 :=
  ⟨(guarded_setter_error_no_state_change (phong_init 0 1) 3 [] []).1 (by decide),
   (guarded_setter_error_no_state_change (phong_init 0 1) 3 [] []).2.1 (by decide),
   (guarded_setter_error_no_state_change (phong_init 0 1) 3 [] []).2.2 (by decide)⟩

/-- C6 counterexample: it is not the case that every exposed uniform
property is readable — every one of the eleven uniform properties is
registered with a null getter, `ambient_color` among them. -/
theorem uniform_properties_readable_counterexample :
    ¬ (∀ p ∈ vertexColorUniformProperties ++ phongUniformProperties,
        p.hasGetter = true ∧ p.hasSetter = true) := by
  decide

/-- C6 (amended): every exposed uniform property is write-only — it is
registered with a setter and a null getter; the plain setters forward
the value unconditionally to the corresponding native setter, and the
three guarded setters forward it whenever their guard passes. -/
theorem uniform_properties_write_only :
    ((vertexColorUniformProperties ++ phongUniformProperties).all
      fun p => !p.hasGetter && p.hasSetter) = true
    ∧ (∀ s c, ambient_color_set s c = (none, NativePhong.setAmbientColor s c))
    ∧ (∀ s c, diffuse_color_set s c = (none, NativePhong.setDiffuseColor s c))
    ∧ (∀ s c, specular_color_set s c = (none, NativePhong.setSpecularColor s c))
    ∧ (∀ s v, shininess_set s v = (none, NativePhong.setShininess s v))
    ∧ (∀ s m, transformation_matrix_set s m = (none, NativePhong.setTransformationMatrix s m))
    ∧ (∀ s m, normal_matrix_set s m = (none, NativePhong.setNormalMatrix s m))
    ∧ (∀ s m, projection_matrix_set s m = (none, NativePhong.setProjectionMatrix s m))
    ∧ (∀ s m, transformation_projection_matrix_set s m =
        (none, NativeVertexColor.setTransformationProjectionMatrix s m))
    ∧ (∀ s v, s.flags &&& Phong.Flag.AlphaMask ≠ 0 →
        alpha_mask_set s v = (none, NativePhong.setAlphaMask s v))
    ∧ (∀ s ps, List.length ps = NativePhong.lightCount s →
        light_positions_set s ps = (none, NativePhong.setLightPositions s ps))
    ∧ (∀ s cs, List.length cs = NativePhong.lightCount s →
        light_colors_set s cs = (none, NativePhong.setLightColors s cs)) := by
  refine ⟨by decide, fun s c => rfl, fun s c => rfl, fun s c => rfl, fun s v => rfl,
    fun s m => rfl, fun s m => rfl, fun s m => rfl, fun s m => rfl, ?_, ?_, ?_⟩
  · intro s v h
    rw [alpha_mask_set, if_neg h]
  · intro s ps h
    rw [light_positions_set, if_neg (not_not_intro h)]
  · intro s cs h
    rw [light_colors_set, if_neg (not_not_intro h)]

/-- Witness for C6 (amended): the guarded setters forward at concrete
inputs satisfying their guards. -/
theorem uniform_properties_write_only_witness :
    alpha_mask_set (phong_init Phong.Flag.AlphaMask 1) 5 =
      (none, (phong_init Phong.Flag.AlphaMask 1).setAlphaMask 5)
    ∧ light_positions_set (phong_init 0 1) [⟨1, 2, 3⟩] =
      (none, (phong_init 0 1).setLightPositions [⟨1, 2, 3⟩])
    ∧ light_colors_set (phong_init 0 1) [⟨1, 2, 3, 4⟩] =
      (none, (phong_init 0 1).setLightColors [⟨1, 2, 3, 4⟩]) :=
  ⟨uniform_properties_write_only.2.2.2.2.2.2.2.2.2.1
      (phong_init Phong.Flag.AlphaMask 1) 5 (by decide),
   uniform_properties_write_only.2.2.2.2.2.2.2.2.2.2.1
      (phong_init 0 1) [⟨1, 2, 3⟩] (by decide),
   uniform_properties_write_only.2.2.2.2.2.2.2.2.2.2.2
      (phong_init 0 1) [⟨1, 2, 3, 4⟩] (by decide)⟩

/-- C7: over a pair of VertexColor instances (the 2D and the 3D one
registered by the module), writing `transformation_projection_matrix` on
either instance succeeds (no exception) and updates only that instance,
leaving the other instance's state unchanged — the binding introduces no
shared hidden state between instances. -/
theorem vertexcolor_instances_independent
    (w : VertexColorPair) (m2 m3 : MatrixPayload) :
    (w.setOn2D m2).vc3d = w.vc3d
    ∧ (w.setOn3D m3).vc2d = w.vc2d
    ∧ (w.setOn2D m2).vc2d = w.vc2d.setTransformationProjectionMatrix m2
    ∧ (w.setOn3D m3).vc3d = w.vc3d.setTransformationProjectionMatrix m3
    ∧ (transformation_projection_matrix_set w.vc2d m2).1 = none
    ∧ (transformation_projection_matrix_set w.vc3d m3).1 = none :=
  ⟨rfl, rfl, rfl, rfl, rfl, rfl⟩

/-- C8: on a Phong shader constructed with the `AlphaMask` flag, setting
`alpha_mask` to the same value twice yields exactly the state of setting
it once. -/
theorem phong_alpha_mask_idempotent (F k : Nat) (v : Int)
    (h : F &&& Phong.Flag.AlphaMask ≠ 0) :
    alpha_mask_set (alpha_mask_set (phong_init F k) v).2 v =
      alpha_mask_set (phong_init F k) v := by
  have hfl : (phong_init F k).flags = F := rfl
  have hset : alpha_mask_set (phong_init F k) v =
      (none, (phong_init F k).setAlphaMask v) := by
    rw [alpha_mask_set, if_neg (hfl ▸ h)]
  have hfl2 : ((phong_init F k).setAlphaMask v).flags = F := rfl
  rw [hset]
  show alpha_mask_set ((phong_init F k).setAlphaMask v) v = _
  rw [alpha_mask_set, if_neg (hfl2 ▸ h)]
  rfl

/-- Witness for C8 at `F = ALPHA_MASK`, `v = 3`. -/
theorem phong_alpha_mask_idempotent_witness :
    alpha_mask_set (alpha_mask_set (phong_init Phong.Flag.AlphaMask 1) 3).2 3 =
      alpha_mask_set (phong_init Phong.Flag.AlphaMask 1) 3 :=
  phong_alpha_mask_idempotent Phong.Flag.AlphaMask 1 3 (by decide)

/-- C9: the `flags` getter returns the native flag word truncated
through an unsigned 8-bit cast; the read-back after construction equals
the construction flags exactly when every set bit lies in the low byte,
and all seven exposed flag values lie in the low byte. -/
theorem phong_flags_getter_truncation (s : NativePhong) (F k : Nat) :
    flags_get s = s.flags % 256
    ∧ (flags_get (phong_init F k) = F ↔ F % 256 = F)
    ∧ (Phong.Flag.exposedValues.all fun v => v % 256 == v) = true :=
  ⟨rfl, Iff.rfl, by decide⟩

/-- C10: the two guard errors are distinct exception types with the
documented messages — the `alpha_mask` capability violation is an
`AttributeError` reading "the shader was not created with alpha mask
enabled"; a `light_positions` or `light_colors` length mismatch is a
`ValueError` reading "expected … items but got …" with the expected and
actual counts; and an `AttributeError` never equals a `ValueError`. -/
theorem guard_error_types_distinguishable (F k : Nat) (v : Int)
    (ps : List Vec3) (cs : List Color4)
    (h1 : F &&& Phong.Flag.AlphaMask = 0)
    (h2 : ps.length ≠ k) (h3 : ps.length < 2 ^ 32)
    (h4 : cs.length ≠ k) (h5 : cs.length < 2 ^ 32) :
    (alpha_mask_set (phong_init F k) v).1 =
      some (PyError.attributeError "the shader was not created with alpha mask enabled")
    ∧ (light_positions_set (phong_init F k) ps).1 =
      some (PyError.valueError (pyFormatExpectedGot k ps.length))
    ∧ (light_colors_set (phong_init F k) cs).1 =
      some (PyError.valueError (pyFormatExpectedGot k cs.length))
    ∧ (∀ a b : String, PyError.attributeError a ≠ PyError.valueError b) := by
  have hfl : (phong_init F k).flags = F := rfl
  have hlc : (phong_init F k).lightCount = k := rfl
  refine ⟨?_, ?_, ?_, fun a b hab => PyError.noConfusion hab⟩
  · rw [alpha_mask_set, if_pos (hfl ▸ h1)]
  · rw [light_positions_set, if_pos (hlc ▸ h2), hlc, Nat.mod_eq_of_lt h3]
  · rw [light_colors_set, if_pos (hlc ▸ h4), hlc, Nat.mod_eq_of_lt h5]

/-- Witness for C10 at `F = 0`, `k = 2`, empty sequences. -/
theorem guard_error_types_distinguishable_witness :
    (alpha_mask_set (phong_init 0 2) 3).1 =
      some (PyError.attributeError "the shader was not created with alpha mask enabled")
    ∧ (light_positions_set (phong_init 0 2) []).1 =
      some (PyError.valueError (pyFormatExpectedGot 2 (List.length ([] : List Vec3))))
    ∧ (light_colors_set (phong_init 0 2) []).1 =
      some (PyError.valueError (pyFormatExpectedGot 2 (List.length ([] : List Color4))))
    ∧ (∀ a b : String, PyError.attributeError a ≠ PyError.valueError b) :=
  guard_error_types_distinguishable 0 2 3 [] []
    (by decide) (by decide) (by decide) (by decide) (by decide)
